import Mathlib

/-
Shallow embedding of the `controller` package (grantr/pkg): four revisions of
glue code that construct an informer cache and a delegating client over a
Kubernetes controller-runtime library.

Modelling conventions:
  * Opaque library values (rest.Config, runtime.Scheme, meta.RESTMapper,
    cache.Cache, client.Client, informers, handlers, durations) are modelled
    as Nat handles; Go nil pointers and nil interfaces are `none` of an
    Option type.
  * The external library entry points (apiutil.NewDiscoveryRESTMapper,
    cache.New, client.New, Cache.GetInformer) are an explicit environment
    `Env` of oracle functions; each embedded function also returns the list
    of library-construction events it performed, in call order, so that
    "constructs X before Y" and "does not construct" are statable.
  * Package-level variables (`Client`/`clientOnce` in client.go,
    `Cache`/`cacheOnce` in runtime.go, `Cache`/`cacheOnce`/`mapper` in
    part_001) are explicit state records threaded through the functions that
    touch them; `sync.Once.Do(f)` runs `f` exactly when the done flag is
    false and leaves the flag true afterwards.
  * Go multiple returns `(v, err)` become `Except Err v` when exactly one of
    the two is non-nil, and pairs of Options when both can be nil at once
    (SetClient returns a nil StartFunc and a nil error after the first call).
  * A StartFunc is the bound method value `cache.Start`, determined by its
    cache, so it is represented by the cache handle itself.
  * `panic` in the Must* helpers is the `MustResult.panic` constructor.
-/

set_option autoImplicit false

namespace KnativeController

/-- Handle for a non-nil *rest.Config. -/
abbrev Config := Nat

/-- Handle for a non-nil *runtime.Scheme. -/
abbrev SchemeV := Nat

/-- Handle for a non-nil meta.RESTMapper. -/
abbrev RESTMapper := Nat

/-- time.Duration in nanoseconds, as in Go. -/
abbrev Duration := Nat

/-- Handle for a non-nil cache.Cache. -/
abbrev CacheHandle := Nat

/-- Handle for a non-nil client.Client returned by client.New (the direct API client). -/
abbrev ApiClient := Nat

/-- Handle for a runtime.Object argument. -/
abbrev Obj := Nat

/-- Handle for a toolscache.SharedIndexInformer. -/
abbrev Informer := Nat

/-- Handle for a toolscache.ResourceEventHandler. -/
abbrev Handler := Nat

/-- Go error values, by message. -/
abbrev Err := String

/-- Go time.Hour in nanoseconds. -/
def timeHour : Duration := 3600000000000

/-- The shared default scheme global (scheme.Scheme), an external package variable. -/
def schemeScheme : SchemeV := 1

/-- cache.Options as filled in by this package: Scheme and Resync are nilable
pointers, Mapper a nilable interface, Namespace a plain string (zero value ""). -/
structure CacheOptions where
  Scheme : Option SchemeV
  Mapper : Option RESTMapper
  Resync : Option Duration
  Namespace : String
deriving DecidableEq

/-- client.Options as filled in by this package. -/
structure ClientOptions where
  Scheme : Option SchemeV
  Mapper : Option RESTMapper
deriving DecidableEq

/-- client.DelegatingReader: reads try CacheReader first, ClientReader is the fallback. -/
structure DelegatingReader where
  CacheReader : Option CacheHandle
  ClientReader : ApiClient
deriving DecidableEq

/-- client.DelegatingClient as assembled by this package. -/
structure DelegatingClient where
  Reader : DelegatingReader
  Writer : ApiClient
  StatusClient : ApiClient
deriving DecidableEq

/-- A library-construction event: one call into the wrapped libraries,
recording the configuration and options passed. -/
inductive Event where
  | discover (cfg : Config)
  | cacheNew (cfg : Config) (o : CacheOptions)
  | clientNew (cfg : Config) (o : ClientOptions)
deriving DecidableEq

/-- The external libraries: results of the wrapped calls. -/
structure Env where
  discover : Config → Except Err RESTMapper
  cacheNew : Config → CacheOptions → Except Err CacheHandle
  clientNew : Config → ClientOptions → Except Err ApiClient
  getInformer : CacheHandle → Obj → Except Err Informer

/-- Outcome of a function that can panic instead of returning. -/
inductive MustResult (α : Type) where
  | panic (e : Err)
  | ok (a : α)
deriving DecidableEq

/-! ## client.go -/

namespace ClientGo

/-- Package-level state of client.go: the global Client and its sync.Once. -/
structure CGState where
  Client : Option DelegatingClient
  clientOnce : Bool
deriving DecidableEq

/-- newClient from client.go: nil-config check, discovery, hard-coded scheme
and 10-hour resync, cache.New, client.New, then the delegating client.
Returns the client together with the cache whose Start method is the
StartFunc. -/
def newClient (env : Env) (config : Option Config) :
    Except Err (DelegatingClient × CacheHandle) × List Event :=
  match config with
  | none => (.error "must specify Config", [])
  | some cfg =>
    match env.discover cfg with
    | .error e => (.error e, [.discover cfg])
    | .ok m =>
      let clientScheme := schemeScheme
      let resyncPeriod := 10 * timeHour
      let co : CacheOptions :=
        { Scheme := some clientScheme, Mapper := some m,
          Resync := some resyncPeriod, Namespace := "" }
      match env.cacheNew cfg co with
      | .error e => (.error e, [.discover cfg, .cacheNew cfg co])
      | .ok c =>
        let ko : ClientOptions := { Scheme := some clientScheme, Mapper := some m }
        match env.clientNew cfg ko with
        | .error e => (.error e, [.discover cfg, .cacheNew cfg co, .clientNew cfg ko])
        | .ok apiClient =>
          (.ok ({ Reader := { CacheReader := some c, ClientReader := apiClient },
                  Writer := apiClient, StatusClient := apiClient }, c),
           [.discover cfg, .cacheNew cfg co, .clientNew cfg ko])

/-- SetClient from client.go: the whole body of newClient runs inside
clientOnce.Do; Client, start and err are all assigned from its results, and
after the first call the Do body is skipped, leaving start and err nil. -/
def SetClient (env : Env) (config : Option Config) (s : CGState) :
    ((Option CacheHandle × Option Err) × List Event) × CGState :=
  if s.clientOnce then (((none, none), []), s)
  else
    match newClient env config with
    | (.error e, t) => (((none, some e), t), { Client := none, clientOnce := true })
    | (.ok (cl, c), t) => (((some c, none), t), { Client := some cl, clientOnce := true })

/-- UnsafeSetClient from client.go: sets the package-level Client directly. -/
def UnsafeSetClient (c : DelegatingClient) (s : CGState) : CGState :=
  { s with Client := some c }

end ClientGo

/-! ## runtime.go -/

namespace RuntimeGo

/-- RuntimeOptions from runtime.go, including the private mapper field. -/
structure RuntimeOptions where
  Scheme : Option SchemeV
  Resync : Option Duration
  Namespace : String
  mapper : Option RESTMapper
deriving DecidableEq

/-- RuntimeOptionFunc mutates a RuntimeOptions struct. -/
abbrev RuntimeOptionFunc := RuntimeOptions → RuntimeOptions

/-- The zero-valued RuntimeOptions struct &RuntimeOptions{}. -/
def emptyOptions : RuntimeOptions :=
  { Scheme := none, Resync := none, Namespace := "", mapper := none }

/-- Scheme functional option. -/
def Scheme (s : SchemeV) : RuntimeOptionFunc :=
  fun o => { o with Scheme := some s }

/-- Resync functional option. -/
def Resync (d : Duration) : RuntimeOptionFunc :=
  fun o => { o with Resync := some d }

/-- Namespace functional option. -/
def Namespace (n : String) : RuntimeOptionFunc :=
  fun o => { o with Namespace := n }

/-- mapper functional option (private). -/
def mapper (m : RESTMapper) : RuntimeOptionFunc :=
  fun o => { o with mapper := some m }

/-- The option-resolution loop shared by the constructors:
resolvedOpts starts zero-valued and each option function is applied in order. -/
def resolveOptions (opts : List RuntimeOptionFunc) : RuntimeOptions :=
  opts.foldl (fun o f => f o) emptyOptions

/-- Package-level state of runtime.go: the global Cache and its sync.Once. -/
structure RTState where
  Cache : Option CacheHandle
  cacheOnce : Bool
deriving DecidableEq

/-- NewCache from runtime.go: nil-config check, option resolution, mapper
reuse-or-discovery, then cache.New with the resolved (zero-valued when unset)
fields. -/
def NewCache (env : Env) (config : Option Config) (opts : List RuntimeOptionFunc) :
    Except Err CacheHandle × List Event :=
  match config with
  | none => (.error "must specify Config", [])
  | some cfg =>
    let resolvedOpts := resolveOptions opts
    match (match resolvedOpts.mapper with
           | some m => ((.ok m : Except Err RESTMapper), ([] : List Event))
           | none => (env.discover cfg, [.discover cfg])) with
    | (.error e, t) => (.error e, t)
    | (.ok restMapper, t) =>
      let o : CacheOptions :=
        { Scheme := resolvedOpts.Scheme, Mapper := some restMapper,
          Resync := resolvedOpts.Resync, Namespace := resolvedOpts.Namespace }
      (env.cacheNew cfg o, t ++ [.cacheNew cfg o])

/-- ConfigureGlobalCache from runtime.go: nil-config check and a dead option
resolution happen before the Once; the Do body assigns Cache from
NewCache(config, opts...), nil on failure. -/
def ConfigureGlobalCache (env : Env) (config : Option Config)
    (opts : List RuntimeOptionFunc) (s : RTState) :
    (Option Err × List Event) × RTState :=
  match config with
  | none => ((some "must specify Config", []), s)
  | some _ =>
    let _resolvedOpts := resolveOptions opts
    if s.cacheOnce then ((none, []), s)
    else
      match NewCache env config opts with
      | (.error e, t) => ((some e, t), { Cache := none, cacheOnce := true })
      | (.ok c, t) => ((none, t), { Cache := some c, cacheOnce := true })

/-- NewCachingClient from runtime.go: nil-config check, option resolution,
one discovery when no mapper option was given (appending the mapper option
for the cache), ConfigureGlobalCache, client.New with the same mapper, then
the delegating client reading from the global Cache. -/
def NewCachingClient (env : Env) (config : Option Config)
    (opts : List RuntimeOptionFunc) (s : RTState) :
    (Except Err DelegatingClient × List Event) × RTState :=
  match config with
  | none => ((.error "must specify Config", []), s)
  | some cfg =>
    let resolvedOpts := resolveOptions opts
    match (match resolvedOpts.mapper with
           | some _ => ((.ok (resolvedOpts, opts) :
               Except Err (RuntimeOptions × List RuntimeOptionFunc)), ([] : List Event))
           | none =>
             match env.discover cfg with
             | .error e => (.error e, [.discover cfg])
             | .ok m =>
               (.ok ({ resolvedOpts with mapper := some m }, opts ++ [mapper m]),
                [.discover cfg])) with
    | (.error e, t) => ((.error e, t), s)
    | (.ok (ro, opts2), t) =>
      match ConfigureGlobalCache env config opts2 s with
      | ((some e, t2), s2) => ((.error e, t ++ t2), s2)
      | ((none, t2), s2) =>
        let ko : ClientOptions := { Scheme := ro.Scheme, Mapper := ro.mapper }
        match env.clientNew cfg ko with
        | .error e => ((.error e, t ++ t2 ++ [.clientNew cfg ko]), s2)
        | .ok apiClient =>
          ((.ok { Reader := { CacheReader := s2.Cache, ClientReader := apiClient },
                  Writer := apiClient, StatusClient := apiClient },
            t ++ t2 ++ [.clientNew cfg ko]), s2)

/-- MustGetInformer from runtime.go: calls GetInformer on the global Cache
(a nil global Cache is a nil interface call, i.e. a runtime panic) and panics
when GetInformer returns an error. -/
def MustGetInformer (env : Env) (s : RTState) (obj : Obj) : MustResult Informer :=
  match s.Cache with
  | none => .panic "invalid memory address or nil pointer dereference"
  | some c =>
    match env.getInformer c obj with
    | .error e => .panic e
    | .ok informer => .ok informer

/-- MustAddEventHandler from runtime.go: MustGetInformer(obj).AddEventHandler(handler);
the ok value records the informer the handler was added to, with the handler. -/
def MustAddEventHandler (env : Env) (s : RTState) (obj : Obj) (handler : Handler) :
    MustResult (Informer × Handler) :=
  match MustGetInformer env s obj with
  | .panic e => .panic e
  | .ok informer => .ok (informer, handler)

end RuntimeGo

/-! ## part_000 -/

namespace Part000

/-- RuntimeOptions from part_000 (no mapper field). -/
structure RuntimeOptions where
  Scheme : Option SchemeV
  Resync : Option Duration
  Namespace : String
deriving DecidableEq

/-- RuntimeOptionFunc from part_000. -/
abbrev RuntimeOptionFunc := RuntimeOptions → RuntimeOptions

/-- The zero-valued RuntimeOptions struct &RuntimeOptions{}. -/
def emptyOptions : RuntimeOptions :=
  { Scheme := none, Resync := none, Namespace := "" }

/-- Scheme functional option. -/
def Scheme (s : SchemeV) : RuntimeOptionFunc :=
  fun o => { o with Scheme := some s }

/-- Resync functional option. -/
def Resync (d : Duration) : RuntimeOptionFunc :=
  fun o => { o with Resync := some d }

/-- Namespace functional option. -/
def Namespace (n : String) : RuntimeOptionFunc :=
  fun o => { o with Namespace := n }

/-- The option-resolution loop of part_000. -/
def resolveOptions (opts : List RuntimeOptionFunc) : RuntimeOptions :=
  opts.foldl (fun o f => f o) emptyOptions

/-- NewCacheAndClient from part_000: nil-config check, option resolution,
discovery (always), cache.New, client.New with the same mapper, then the
delegating client; returns the cache and the client. -/
def NewCacheAndClient (env : Env) (config : Option Config)
    (opts : List RuntimeOptionFunc) :
    Except Err (CacheHandle × DelegatingClient) × List Event :=
  match config with
  | none => (.error "must specify Config", [])
  | some cfg =>
    let resolvedOpts := resolveOptions opts
    match env.discover cfg with
    | .error e => (.error e, [.discover cfg])
    | .ok m =>
      let co : CacheOptions :=
        { Scheme := resolvedOpts.Scheme, Mapper := some m,
          Resync := resolvedOpts.Resync, Namespace := resolvedOpts.Namespace }
      match env.cacheNew cfg co with
      | .error e => (.error e, [.discover cfg, .cacheNew cfg co])
      | .ok c =>
        let ko : ClientOptions := { Scheme := resolvedOpts.Scheme, Mapper := some m }
        match env.clientNew cfg ko with
        | .error e => (.error e, [.discover cfg, .cacheNew cfg co, .clientNew cfg ko])
        | .ok apiClient =>
          (.ok (c, { Reader := { CacheReader := some c, ClientReader := apiClient },
                     Writer := apiClient, StatusClient := apiClient }),
           [.discover cfg, .cacheNew cfg co, .clientNew cfg ko])

/-- MustGetInformer from part_000: GetInformer on the given cache (nil cache
is a nil interface call), panicking on error. -/
def MustGetInformer (env : Env) (cache : Option CacheHandle) (obj : Obj) :
    MustResult Informer :=
  match cache with
  | none => .panic "invalid memory address or nil pointer dereference"
  | some c =>
    match env.getInformer c obj with
    | .error e => .panic e
    | .ok informer => .ok informer

/-- MustAddEventHandler from part_000: MustGetInformer(cache, obj).AddEventHandler(handler). -/
def MustAddEventHandler (env : Env) (cache : Option CacheHandle) (obj : Obj)
    (handler : Handler) : MustResult (Informer × Handler) :=
  match MustGetInformer env cache obj with
  | .panic e => .panic e
  | .ok informer => .ok (informer, handler)

end Part000

/-! ## part_001 -/

namespace Part001

/-- RuntimeOptions from part_001 (no mapper field). -/
structure RuntimeOptions where
  Scheme : Option SchemeV
  Resync : Option Duration
  Namespace : String
deriving DecidableEq

/-- RuntimeOptionFunc from part_001. -/
abbrev RuntimeOptionFunc := RuntimeOptions → RuntimeOptions

/-- The zero-valued RuntimeOptions struct &RuntimeOptions{}. -/
def emptyOptions : RuntimeOptions :=
  { Scheme := none, Resync := none, Namespace := "" }

/-- Scheme functional option. -/
def Scheme (s : SchemeV) : RuntimeOptionFunc :=
  fun o => { o with Scheme := some s }

/-- Resync functional option. -/
def Resync (d : Duration) : RuntimeOptionFunc :=
  fun o => { o with Resync := some d }

/-- Namespace functional option. -/
def Namespace (n : String) : RuntimeOptionFunc :=
  fun o => { o with Namespace := n }

/-- The option-resolution loop of part_001. -/
def resolveOptions (opts : List RuntimeOptionFunc) : RuntimeOptions :=
  opts.foldl (fun o f => f o) emptyOptions

/-- Package-level state of part_001: the global Cache, its sync.Once, and the
stored global mapper. -/
structure P1State where
  Cache : Option CacheHandle
  cacheOnce : Bool
  mapper : Option RESTMapper
deriving DecidableEq

/-- StartCache from part_001: nil-config check and option resolution before
the Once; the Do body assigns the global mapper from discovery (nil on
failure) and then the global Cache from cache.New (nil on failure). -/
def StartCache (env : Env) (config : Option Config)
    (opts : List RuntimeOptionFunc) (s : P1State) :
    (Option Err × List Event) × P1State :=
  match config with
  | none => ((some "must specify Config", []), s)
  | some cfg =>
    let resolvedOpts := resolveOptions opts
    if s.cacheOnce then ((none, []), s)
    else
      match env.discover cfg with
      | .error e =>
        ((some e, [.discover cfg]),
         { Cache := s.Cache, cacheOnce := true, mapper := none })
      | .ok m =>
        let o : CacheOptions :=
          { Scheme := resolvedOpts.Scheme, Mapper := some m,
            Resync := resolvedOpts.Resync, Namespace := resolvedOpts.Namespace }
        match env.cacheNew cfg o with
        | .error e =>
          ((some e, [.discover cfg, .cacheNew cfg o]),
           { Cache := none, cacheOnce := true, mapper := some m })
        | .ok c =>
          ((none, [.discover cfg, .cacheNew cfg o]),
           { Cache := some c, cacheOnce := true, mapper := some m })

/-- NewClient from part_001: nil-config check, option resolution, client.New
with the stored global mapper, then the delegating client reading from the
global Cache. Reads the state, never writes it. -/
def NewClient (env : Env) (config : Option Config)
    (opts : List RuntimeOptionFunc) (s : P1State) :
    Except Err DelegatingClient × List Event :=
  match config with
  | none => (.error "must specify Config", [])
  | some cfg =>
    let resolvedOpts := resolveOptions opts
    let ko : ClientOptions := { Scheme := resolvedOpts.Scheme, Mapper := s.mapper }
    match env.clientNew cfg ko with
    | .error e => (.error e, [.clientNew cfg ko])
    | .ok apiClient =>
      (.ok { Reader := { CacheReader := s.Cache, ClientReader := apiClient },
             Writer := apiClient, StatusClient := apiClient },
       [.clientNew cfg ko])

/-- MustGetInformer from part_001: GetInformer on the global Cache (nil
global Cache is a nil interface call), panicking on error. -/
def MustGetInformer (env : Env) (s : P1State) (obj : Obj) : MustResult Informer :=
  match s.Cache with
  | none => .panic "invalid memory address or nil pointer dereference"
  | some c =>
    match env.getInformer c obj with
    | .error e => .panic e
    | .ok informer => .ok informer

/-- MustAddEventHandler from part_001: MustGetInformer(obj).AddEventHandler(handler). -/
def MustAddEventHandler (env : Env) (s : P1State) (obj : Obj) (handler : Handler) :
    MustResult (Informer × Handler) :=
  match MustGetInformer env s obj with
  | .panic e => .panic e
  | .ok informer => .ok (informer, handler)

end Part001

/-! ## Concrete environments used by witnesses and counterexamples -/

/-- An environment in which every library call succeeds, with distinct handles. -/
def env0 : Env :=
  { discover := fun _ => .ok 7
    cacheNew := fun _ _ => .ok 11
    clientNew := fun _ _ => .ok 13
    getInformer := fun c o => .ok (c + o) }

/-- An environment in which REST-mapper discovery fails. -/
def envNoDiscovery : Env :=
  { discover := fun _ => .error "no discovery"
    cacheNew := fun _ _ => .ok 11
    clientNew := fun _ _ => .ok 13
    getInformer := fun _ _ => .error "no informer" }

/-- An environment in which cache construction fails. -/
def envNoCache : Env :=
  { discover := fun _ => .ok 7
    cacheNew := fun _ _ => .error "no cache"
    clientNew := fun _ _ => .ok 13
    getInformer := fun _ _ => .error "no informer" }

/-! ## Shared helper lemmas -/

/-- Appending the private mapper option resolves to the same options with
only the mapper field set. -/
theorem resolveOptions_append_mapper (opts : List RuntimeGo.RuntimeOptionFunc)
    (m : RESTMapper) :
    RuntimeGo.resolveOptions (opts ++ [RuntimeGo.mapper m]) =
      { RuntimeGo.resolveOptions opts with mapper := some m } := by
  simp [RuntimeGo.resolveOptions, List.foldl_append, RuntimeGo.mapper]

/-! ## Claims -/

/-- Claim C1: every composite client constructed by newClient (client.go),
NewCachingClient (runtime.go), NewCacheAndClient (part_000), and NewClient
(part_001) is a DelegatingClient whose DelegatingReader has the informer
cache as CacheReader and the direct API client (the result of client.New) as
the fallback ClientReader, and whose Writer and StatusClient are that same
direct API client. For the revisions with a global cache the informer cache
is the package-level Cache (newly constructed when starting from the fresh
state). -/
theorem delegatingClient_reads_cache_writes_client :
    (∀ (env : Env) (cfg : Config) (m : RESTMapper) (c : CacheHandle) (a : ApiClient),
      env.discover cfg = .ok m →
      env.cacheNew cfg { Scheme := some schemeScheme, Mapper := some m,
                         Resync := some (10 * timeHour), Namespace := "" } = .ok c →
      env.clientNew cfg { Scheme := some schemeScheme, Mapper := some m } = .ok a →
      (ClientGo.newClient env (some cfg)).1 =
        .ok ({ Reader := { CacheReader := some c, ClientReader := a },
               Writer := a, StatusClient := a }, c)) ∧
    (∀ (env : Env) (cfg : Config) (opts : List Part000.RuntimeOptionFunc)
        (m : RESTMapper) (c : CacheHandle) (a : ApiClient),
      env.discover cfg = .ok m →
      env.cacheNew cfg { Scheme := (Part000.resolveOptions opts).Scheme, Mapper := some m,
                         Resync := (Part000.resolveOptions opts).Resync,
                         Namespace := (Part000.resolveOptions opts).Namespace } = .ok c →
      env.clientNew cfg { Scheme := (Part000.resolveOptions opts).Scheme,
                          Mapper := some m } = .ok a →
      (Part000.NewCacheAndClient env (some cfg) opts).1 =
        .ok (c, { Reader := { CacheReader := some c, ClientReader := a },
                  Writer := a, StatusClient := a })) ∧
    (∀ (env : Env) (cfg : Config) (opts : List RuntimeGo.RuntimeOptionFunc)
        (m : RESTMapper) (c : CacheHandle) (a : ApiClient),
      (RuntimeGo.resolveOptions opts).mapper = none →
      env.discover cfg = .ok m →
      env.cacheNew cfg { Scheme := (RuntimeGo.resolveOptions opts).Scheme, Mapper := some m,
                         Resync := (RuntimeGo.resolveOptions opts).Resync,
                         Namespace := (RuntimeGo.resolveOptions opts).Namespace } = .ok c →
      env.clientNew cfg { Scheme := (RuntimeGo.resolveOptions opts).Scheme,
                          Mapper := some m } = .ok a →
      RuntimeGo.NewCachingClient env (some cfg) opts { Cache := none, cacheOnce := false } =
        ((.ok { Reader := { CacheReader := some c, ClientReader := a },
                Writer := a, StatusClient := a },
          (RuntimeGo.NewCachingClient env (some cfg) opts
            { Cache := none, cacheOnce := false }).1.2),
         { Cache := some c, cacheOnce := true })) ∧
    (∀ (env : Env) (cfg : Config) (opts : List Part001.RuntimeOptionFunc)
        (s : Part001.P1State) (a : ApiClient),
      env.clientNew cfg { Scheme := (Part001.resolveOptions opts).Scheme,
                          Mapper := s.mapper } = .ok a →
      (Part001.NewClient env (some cfg) opts s).1 =
        .ok { Reader := { CacheReader := s.Cache, ClientReader := a },
              Writer := a, StatusClient := a }) := by
  refine ⟨?_, ?_, ?_, ?_⟩
  · intro env cfg m c a hd hc hk
    simp [ClientGo.newClient, hd, hc, hk]
  · intro env cfg opts m c a hd hc hk
    simp [Part000.NewCacheAndClient, hd, hc, hk]
  · intro env cfg opts m c a hm hd hc hk
    simp [RuntimeGo.NewCachingClient, RuntimeGo.ConfigureGlobalCache,
          RuntimeGo.NewCache, resolveOptions_append_mapper, hm, hd, hc, hk]
  · intro env cfg opts s a hk
    simp [Part001.NewClient, hk]

/-- Claim C1 witness: instantiation in a fully successful environment. -/
theorem delegatingClient_reads_cache_writes_client_witness :
    (ClientGo.newClient env0 (some 5)).1 =
      .ok ({ Reader := { CacheReader := some 11, ClientReader := 13 },
             Writer := 13, StatusClient := 13 }, 11) :=
  delegatingClient_reads_cache_writes_client.1 env0 5 7 11 13 rfl rfl rfl

/-- Claim C2: once a once-guarded body has run (done flag true), every later
call to the same function, with any config and options, leaves the package
state (global Client, global Cache, stored mapper) unchanged and performs no
library construction at all (empty event trace); SetClient additionally
returns nil start and nil error. -/
theorem once_guard_initializes_at_most_once :
    (∀ (env : Env) (config : Option Config) (s : ClientGo.CGState),
      s.clientOnce = true →
      ClientGo.SetClient env config s = (((none, none), []), s)) ∧
    (∀ (env : Env) (config : Option Config) (opts : List RuntimeGo.RuntimeOptionFunc)
        (s : RuntimeGo.RTState),
      s.cacheOnce = true →
      (RuntimeGo.ConfigureGlobalCache env config opts s).2 = s ∧
      (RuntimeGo.ConfigureGlobalCache env config opts s).1.2 = []) ∧
    (∀ (env : Env) (config : Option Config) (opts : List Part001.RuntimeOptionFunc)
        (s : Part001.P1State),
      s.cacheOnce = true →
      (Part001.StartCache env config opts s).2 = s ∧
      (Part001.StartCache env config opts s).1.2 = []) := by
  refine ⟨?_, ?_, ?_⟩
  · intro env config s h
    simp [ClientGo.SetClient, h]
  · intro env config opts s h
    cases config with
    | none => exact ⟨rfl, rfl⟩
    | some cfg => simp [RuntimeGo.ConfigureGlobalCache, h]
  · intro env config opts s h
    cases config with
    | none => exact ⟨rfl, rfl⟩
    | some cfg => simp [Part001.StartCache, h]

/-- Claim C2 witness: a second SetClient call on a consumed guard is a no-op. -/
theorem once_guard_initializes_at_most_once_witness :
    ClientGo.SetClient env0 (some 5) { Client := none, clientOnce := true } =
      (((none, none), []), { Client := none, clientOnce := true }) :=
  once_guard_initializes_at_most_once.1 env0 (some 5)
    { Client := none, clientOnce := true } rfl

/-- Claim C3 counterexample: called with a nil config, newClient returns the
error "must specify Config" to its caller instead of panicking (its result
type has no panic outcome at all), refuting the claim that setup errors
cause a panic rather than being returned. -/
theorem setup_errors_panic_counterexample :
    (ClientGo.newClient env0 none).1 = .error "must specify Config" := rfl

/-- Claim C3 amended: setup errors met while constructing the client and
cache (nil config, REST-mapper discovery failure, cache construction
failure, API-client construction failure) are returned to the caller as
errors by the constructors of this package; only the Must* helpers panic,
and they do so exactly on GetInformer errors. -/
theorem setup_errors_returned_must_helpers_panic :
    (∀ env : Env, ClientGo.newClient env none = (.error "must specify Config", [])) ∧
    (∀ (env : Env) (cfg : Config) (e : Err),
      env.discover cfg = .error e →
      (ClientGo.newClient env (some cfg)).1 = .error e) ∧
    (∀ (env : Env) (cfg : Config) (m : RESTMapper) (e : Err),
      env.discover cfg = .ok m →
      env.cacheNew cfg { Scheme := some schemeScheme, Mapper := some m,
                         Resync := some (10 * timeHour), Namespace := "" } = .error e →
      (ClientGo.newClient env (some cfg)).1 = .error e) ∧
    (∀ (env : Env) (cfg : Config) (m : RESTMapper) (c : CacheHandle) (e : Err),
      env.discover cfg = .ok m →
      env.cacheNew cfg { Scheme := some schemeScheme, Mapper := some m,
                         Resync := some (10 * timeHour), Namespace := "" } = .ok c →
      env.clientNew cfg { Scheme := some schemeScheme, Mapper := some m } = .error e →
      (ClientGo.newClient env (some cfg)).1 = .error e) ∧
    (∀ (env : Env) (s : RuntimeGo.RTState) (c : CacheHandle) (obj : Obj) (e : Err),
      s.Cache = some c →
      env.getInformer c obj = .error e →
      RuntimeGo.MustGetInformer env s obj = .panic e) ∧
    (∀ (env : Env) (c : CacheHandle) (obj : Obj) (e : Err),
      env.getInformer c obj = .error e →
      Part000.MustGetInformer env (some c) obj = .panic e) := by
  refine ⟨?_, ?_, ?_, ?_, ?_, ?_⟩
  · intro env; rfl
  · intro env cfg e hd
    simp [ClientGo.newClient, hd]
  · intro env cfg m e hd hc
    simp [ClientGo.newClient, hd, hc]
  · intro env cfg m c e hd hc hk
    simp [ClientGo.newClient, hd, hc, hk]
  · intro env s c obj e hs hg
    simp [RuntimeGo.MustGetInformer, hs, hg]
  · intro env c obj e hg
    simp [Part000.MustGetInformer, hg]

/-- Claim C3 amended witness: a discovery failure is returned by newClient. -/
theorem setup_errors_returned_witness :
    (ClientGo.newClient envNoDiscovery (some 5)).1 = .error "no discovery" :=
  setup_errors_returned_must_helpers_panic.2.1 envNoDiscovery 5 "no discovery" rfl

/-- Claim C4: each constructor resolves the options by folding every option
function, then obtains a REST mapper (reusing the mapper option when set,
otherwise discovering exactly once), then constructs the cache, then the
API client, in that order and from the same config and mapper; in
particular NewCachingClient passes one and the same discovered mapper to
both the global cache and the API client. -/
theorem constructor_order_and_shared_mapper :
    (∀ (env : Env) (cfg : Config) (opts : List RuntimeGo.RuntimeOptionFunc)
        (m : RESTMapper),
      (RuntimeGo.resolveOptions opts).mapper = none →
      env.discover cfg = .ok m →
      (RuntimeGo.NewCache env (some cfg) opts).2 =
        [.discover cfg,
         .cacheNew cfg { Scheme := (RuntimeGo.resolveOptions opts).Scheme,
                         Mapper := some m,
                         Resync := (RuntimeGo.resolveOptions opts).Resync,
                         Namespace := (RuntimeGo.resolveOptions opts).Namespace }]) ∧
    (∀ (env : Env) (cfg : Config) (opts : List RuntimeGo.RuntimeOptionFunc)
        (m : RESTMapper),
      (RuntimeGo.resolveOptions opts).mapper = some m →
      (RuntimeGo.NewCache env (some cfg) opts).2 =
        [.cacheNew cfg { Scheme := (RuntimeGo.resolveOptions opts).Scheme,
                         Mapper := some m,
                         Resync := (RuntimeGo.resolveOptions opts).Resync,
                         Namespace := (RuntimeGo.resolveOptions opts).Namespace }]) ∧
    (∀ (env : Env) (cfg : Config) (opts : List Part000.RuntimeOptionFunc)
        (m : RESTMapper) (c : CacheHandle),
      env.discover cfg = .ok m →
      env.cacheNew cfg { Scheme := (Part000.resolveOptions opts).Scheme,
                         Mapper := some m,
                         Resync := (Part000.resolveOptions opts).Resync,
                         Namespace := (Part000.resolveOptions opts).Namespace } = .ok c →
      (Part000.NewCacheAndClient env (some cfg) opts).2 =
        [.discover cfg,
         .cacheNew cfg { Scheme := (Part000.resolveOptions opts).Scheme,
                         Mapper := some m,
                         Resync := (Part000.resolveOptions opts).Resync,
                         Namespace := (Part000.resolveOptions opts).Namespace },
         .clientNew cfg { Scheme := (Part000.resolveOptions opts).Scheme,
                          Mapper := some m }]) ∧
    (∀ (env : Env) (cfg : Config) (opts : List RuntimeGo.RuntimeOptionFunc)
        (m : RESTMapper) (c : CacheHandle),
      (RuntimeGo.resolveOptions opts).mapper = none →
      env.discover cfg = .ok m →
      env.cacheNew cfg { Scheme := (RuntimeGo.resolveOptions opts).Scheme,
                         Mapper := some m,
                         Resync := (RuntimeGo.resolveOptions opts).Resync,
                         Namespace := (RuntimeGo.resolveOptions opts).Namespace } = .ok c →
      (RuntimeGo.NewCachingClient env (some cfg) opts
        { Cache := none, cacheOnce := false }).1.2 =
        [.discover cfg,
         .cacheNew cfg { Scheme := (RuntimeGo.resolveOptions opts).Scheme,
                         Mapper := some m,
                         Resync := (RuntimeGo.resolveOptions opts).Resync,
                         Namespace := (RuntimeGo.resolveOptions opts).Namespace },
         .clientNew cfg { Scheme := (RuntimeGo.resolveOptions opts).Scheme,
                          Mapper := some m }]) := by
  refine ⟨?_, ?_, ?_, ?_⟩
  · intro env cfg opts m hm hd
    simp [RuntimeGo.NewCache, hm, hd]
  · intro env cfg opts m hm
    simp [RuntimeGo.NewCache, hm]
  · intro env cfg opts m c hd hc
    cases hk : env.clientNew cfg { Scheme := (Part000.resolveOptions opts).Scheme,
                                   Mapper := some m } with
    | error e => simp [Part000.NewCacheAndClient, hd, hc, hk]
    | ok a => simp [Part000.NewCacheAndClient, hd, hc, hk]
  · intro env cfg opts m c hm hd hc
    cases hk : env.clientNew cfg { Scheme := (RuntimeGo.resolveOptions opts).Scheme,
                                   Mapper := some m } with
    | error e =>
      simp [RuntimeGo.NewCachingClient, RuntimeGo.ConfigureGlobalCache,
            RuntimeGo.NewCache, resolveOptions_append_mapper, hm, hd, hc, hk]
    | ok a =>
      simp [RuntimeGo.NewCachingClient, RuntimeGo.ConfigureGlobalCache,
            RuntimeGo.NewCache, resolveOptions_append_mapper, hm, hd, hc, hk]

/-- Claim C4 witness: the fully successful environment realizes the
discover-cache-client order for NewCachingClient from the fresh state. -/
theorem constructor_order_witness :
    (RuntimeGo.NewCachingClient env0 (some 5) []
      { Cache := none, cacheOnce := false }).1.2 =
      [.discover 5,
       .cacheNew 5 { Scheme := none, Mapper := some 7, Resync := none, Namespace := "" },
       .clientNew 5 { Scheme := none, Mapper := some 7 }] :=
  constructor_order_and_shared_mapper.2.2.2 env0 5 [] 7 11 rfl rfl rfl

/-- Claim C5 counterexample: NewCache called without options passes the
zero-valued fields straight to cache.New: the Scheme it hands the library is
nil (none), not the default scheme, and the Resync it hands the library is
nil, not the 10-hour period, so default-value resolution is not performed by
this code. -/
theorem unset_options_default_counterexample :
    (RuntimeGo.NewCache env0 (some 3) []).2 =
      [.discover 3,
       .cacheNew 3 { Scheme := none, Mapper := some 7, Resync := none, Namespace := "" }] ∧
    (none : Option SchemeV) ≠ some schemeScheme ∧
    (none : Option Duration) ≠ some (10 * timeHour) := by
  refine ⟨rfl, ?_, ?_⟩ <;> simp

/-- Claim C5 amended: the options-taking constructors (NewCache,
NewCacheAndClient, and NewCachingClient via NewCache) pass unset
RuntimeOptions fields through to the underlying libraries as Go zero values
(nil Scheme, nil Resync, empty Namespace), leaving the defaulting to the
libraries; only newClient in client.go, which takes no options, itself
supplies the default scheme and the 10-hour resync period. -/
theorem unset_options_passed_as_zero_values :
    (∀ (env : Env) (cfg : Config) (m : RESTMapper),
      env.discover cfg = .ok m →
      (RuntimeGo.NewCache env (some cfg) []).2 =
        [.discover cfg,
         .cacheNew cfg { Scheme := none, Mapper := some m, Resync := none, Namespace := "" }]) ∧
    (∀ (env : Env) (cfg : Config) (m : RESTMapper),
      env.discover cfg = .ok m →
      ((Part000.NewCacheAndClient env (some cfg) []).2).take 2 =
        [.discover cfg,
         .cacheNew cfg { Scheme := none, Mapper := some m, Resync := none, Namespace := "" }]) ∧
    (∀ (env : Env) (cfg : Config) (m : RESTMapper),
      env.discover cfg = .ok m →
      ((ClientGo.newClient env (some cfg)).2).take 2 =
        [.discover cfg,
         .cacheNew cfg { Scheme := some schemeScheme, Mapper := some m,
                         Resync := some (10 * timeHour), Namespace := "" }]) := by
  refine ⟨?_, ?_, ?_⟩
  · intro env cfg m hd
    simp [RuntimeGo.NewCache, RuntimeGo.resolveOptions, RuntimeGo.emptyOptions, hd]
  · intro env cfg m hd
    cases hc : env.cacheNew cfg
        { Scheme := none, Mapper := some m, Resync := none, Namespace := "" } with
    | error e =>
      simp [Part000.NewCacheAndClient, Part000.resolveOptions, Part000.emptyOptions, hd, hc]
    | ok c =>
      cases hk : env.clientNew cfg { Scheme := none, Mapper := some m } with
      | error e =>
        simp [Part000.NewCacheAndClient, Part000.resolveOptions, Part000.emptyOptions,
              hd, hc, hk]
      | ok a =>
        simp [Part000.NewCacheAndClient, Part000.resolveOptions, Part000.emptyOptions,
              hd, hc, hk]
  · intro env cfg m hd
    cases hc : env.cacheNew cfg
        { Scheme := some schemeScheme, Mapper := some m,
          Resync := some (10 * timeHour), Namespace := "" } with
    | error e => simp [ClientGo.newClient, hd, hc]
    | ok c =>
      cases hk : env.clientNew cfg { Scheme := some schemeScheme, Mapper := some m } with
      | error e => simp [ClientGo.newClient, hd, hc, hk]
      | ok a => simp [ClientGo.newClient, hd, hc, hk]

/-- Claim C5 amended witness: concrete zero-value pass-through for NewCache. -/
theorem unset_options_passed_as_zero_values_witness :
    (RuntimeGo.NewCache env0 (some 4) []).2 =
      [.discover 4,
       .cacheNew 4 { Scheme := none, Mapper := some 7, Resync := none, Namespace := "" }] :=
  unset_options_passed_as_zero_values.1 env0 4 7 rfl

/-- Claim C6: with the cache in place, MustGetInformer panics exactly when
GetInformer returns an error (with that error) and otherwise returns
exactly the informer GetInformer returned; MustAddEventHandler adds the
handler to exactly the informer MustGetInformer returns and panics under
exactly the same condition. Stated for the runtime.go, part_000 and
part_001 revisions. -/
theorem must_helpers_panic_iff_getInformer_errors :
    (∀ (env : Env) (s : RuntimeGo.RTState) (c : CacheHandle) (obj : Obj),
      s.Cache = some c →
      (∀ e, RuntimeGo.MustGetInformer env s obj = .panic e ↔
        env.getInformer c obj = .error e) ∧
      (∀ i, RuntimeGo.MustGetInformer env s obj = .ok i ↔
        env.getInformer c obj = .ok i)) ∧
    (∀ (env : Env) (c : CacheHandle) (obj : Obj),
      (∀ e, Part000.MustGetInformer env (some c) obj = .panic e ↔
        env.getInformer c obj = .error e) ∧
      (∀ i, Part000.MustGetInformer env (some c) obj = .ok i ↔
        env.getInformer c obj = .ok i)) ∧
    (∀ (env : Env) (s : Part001.P1State) (c : CacheHandle) (obj : Obj),
      s.Cache = some c →
      (∀ e, Part001.MustGetInformer env s obj = .panic e ↔
        env.getInformer c obj = .error e) ∧
      (∀ i, Part001.MustGetInformer env s obj = .ok i ↔
        env.getInformer c obj = .ok i)) ∧
    (∀ (env : Env) (s : Part001.P1State) (obj : Obj) (h : Handler),
      (∀ e, Part001.MustAddEventHandler env s obj h = .panic e ↔
        Part001.MustGetInformer env s obj = .panic e) ∧
      (∀ i, Part001.MustAddEventHandler env s obj h = .ok (i, h) ↔
        Part001.MustGetInformer env s obj = .ok i)) ∧
    (∀ (env : Env) (s : RuntimeGo.RTState) (obj : Obj) (h : Handler),
      (∀ e, RuntimeGo.MustAddEventHandler env s obj h = .panic e ↔
        RuntimeGo.MustGetInformer env s obj = .panic e) ∧
      (∀ i, RuntimeGo.MustAddEventHandler env s obj h = .ok (i, h) ↔
        RuntimeGo.MustGetInformer env s obj = .ok i)) := by
  refine ⟨?_, ?_, ?_, ?_, ?_⟩
  · intro env s c obj hs
    constructor
    · intro e
      cases hg : env.getInformer c obj with
      | error x => simp [RuntimeGo.MustGetInformer, hs, hg]
      | ok i => simp [RuntimeGo.MustGetInformer, hs, hg]
    · intro i
      cases hg : env.getInformer c obj with
      | error x => simp [RuntimeGo.MustGetInformer, hs, hg]
      | ok j => simp [RuntimeGo.MustGetInformer, hs, hg]
  · intro env c obj
    constructor
    · intro e
      cases hg : env.getInformer c obj with
      | error x => simp [Part000.MustGetInformer, hg]
      | ok i => simp [Part000.MustGetInformer, hg]
    · intro i
      cases hg : env.getInformer c obj with
      | error x => simp [Part000.MustGetInformer, hg]
      | ok j => simp [Part000.MustGetInformer, hg]
  · intro env s c obj hs
    constructor
    · intro e
      cases hg : env.getInformer c obj with
      | error x => simp [Part001.MustGetInformer, hs, hg]
      | ok i => simp [Part001.MustGetInformer, hs, hg]
    · intro i
      cases hg : env.getInformer c obj with
      | error x => simp [Part001.MustGetInformer, hs, hg]
      | ok j => simp [Part001.MustGetInformer, hs, hg]
  · intro env s obj h
    constructor
    · intro e
      cases hg : Part001.MustGetInformer env s obj with
      | panic x => simp [Part001.MustAddEventHandler, hg]
      | ok i => simp [Part001.MustAddEventHandler, hg]
    · intro i
      cases hg : Part001.MustGetInformer env s obj with
      | panic x => simp [Part001.MustAddEventHandler, hg]
      | ok j => simp [Part001.MustAddEventHandler, hg]
  · intro env s obj h
    constructor
    · intro e
      cases hg : RuntimeGo.MustGetInformer env s obj with
      | panic x => simp [RuntimeGo.MustAddEventHandler, hg]
      | ok i => simp [RuntimeGo.MustAddEventHandler, hg]
    · intro i
      cases hg : RuntimeGo.MustGetInformer env s obj with
      | panic x => simp [RuntimeGo.MustAddEventHandler, hg]
      | ok j => simp [RuntimeGo.MustAddEventHandler, hg]

/-- Claim C6 witness: the panic-iff-error equivalence instantiated on the
configured-cache state in the successful environment. -/
theorem must_helpers_panic_iff_witness :
    RuntimeGo.MustGetInformer env0 { Cache := some 11, cacheOnce := true } 4 = .ok 15 ↔
      env0.getInformer 11 4 = .ok 15 :=
  (must_helpers_panic_iff_getInformer_errors.1 env0
    { Cache := some 11, cacheOnce := true } 11 4 rfl).2 15

/-- Claim C9 counterexample: SetClient checks for a nil config only inside
its once-guarded body, so a nil-config call on the fresh state consumes the
clientOnce guard: the resulting state has the done flag set, refuting the
claim that the once guards are left unchanged on the nil-config error path. -/
theorem nil_config_atomicity_counterexample :
    (ClientGo.SetClient env0 none { Client := none, clientOnce := false }).2 =
      { Client := none, clientOnce := true } ∧
    ({ Client := none, clientOnce := true } : ClientGo.CGState) ≠
      { Client := none, clientOnce := false } := by
  exact ⟨rfl, by decide⟩

/-- Claim C9 amended: for a nil config every constructor returns the error
"must specify Config" with nil results (SetClient on its first call), the
global Client, Cache and stored mapper are left unchanged, and the once
guards of ConfigureGlobalCache and StartCache are untouched; SetClient
alone consumes its once guard on this path, because its nil-config check
runs inside the guarded body. -/
theorem nil_config_returns_error :
    (∀ (env : Env) (s : ClientGo.CGState),
      s.clientOnce = false →
      ClientGo.SetClient env none s =
        (((none, some "must specify Config"), []),
         { Client := none, clientOnce := true })) ∧
    (∀ (env : Env) (opts : List RuntimeGo.RuntimeOptionFunc) (s : RuntimeGo.RTState),
      RuntimeGo.ConfigureGlobalCache env none opts s =
        ((some "must specify Config", []), s)) ∧
    (∀ (env : Env) (opts : List RuntimeGo.RuntimeOptionFunc),
      RuntimeGo.NewCache env none opts = (.error "must specify Config", [])) ∧
    (∀ (env : Env) (opts : List RuntimeGo.RuntimeOptionFunc) (s : RuntimeGo.RTState),
      RuntimeGo.NewCachingClient env none opts s =
        ((.error "must specify Config", []), s)) ∧
    (∀ (env : Env) (opts : List Part000.RuntimeOptionFunc),
      Part000.NewCacheAndClient env none opts = (.error "must specify Config", [])) ∧
    (∀ (env : Env) (opts : List Part001.RuntimeOptionFunc) (s : Part001.P1State),
      Part001.StartCache env none opts s = ((some "must specify Config", []), s)) := by
  refine ⟨?_, ?_, ?_, ?_, ?_, ?_⟩
  · intro env s h
    simp [ClientGo.SetClient, ClientGo.newClient, h]
  · intro env opts s; rfl
  · intro env opts; rfl
  · intro env opts s; rfl
  · intro env opts; rfl
  · intro env opts s; rfl

/-- Claim C9 amended witness: the nil-config error on a fresh SetClient. -/
theorem nil_config_returns_error_witness :
    ClientGo.SetClient env0 none { Client := none, clientOnce := false } =
      (((none, some "must specify Config"), []),
       { Client := none, clientOnce := true }) :=
  nil_config_returns_error.1 env0 { Client := none, clientOnce := false } rfl

/-- Claim C10: the once guard is consumed even on failure and on repeat
calls: a failing first once-guarded attempt of SetClient,
ConfigureGlobalCache or StartCache leaves the done flag set with the global
Client or Cache still nil; every later call (with a well-formed config)
returns a nil error while the global stays nil; and a second SetClient call
after a successful first returns a nil StartFunc and a nil error instead of
the original StartFunc. -/
theorem once_guard_consumed_on_failure :
    (∀ (env : Env) (cfg : Config) (e : Err) (s : ClientGo.CGState),
      s.clientOnce = false →
      env.discover cfg = .error e →
      ClientGo.SetClient env (some cfg) s =
        (((none, some e), [.discover cfg]), { Client := none, clientOnce := true })) ∧
    (∀ (env : Env) (config : Option Config),
      ClientGo.SetClient env config { Client := none, clientOnce := true } =
        (((none, none), []), { Client := none, clientOnce := true })) ∧
    (∀ (env : Env) (cfg : Config) (opts : List RuntimeGo.RuntimeOptionFunc)
        (e : Err) (s : RuntimeGo.RTState),
      s.cacheOnce = false →
      (RuntimeGo.resolveOptions opts).mapper = none →
      env.discover cfg = .error e →
      RuntimeGo.ConfigureGlobalCache env (some cfg) opts s =
        ((some e, [.discover cfg]), { Cache := none, cacheOnce := true })) ∧
    (∀ (env : Env) (cfg : Config) (opts : List RuntimeGo.RuntimeOptionFunc),
      RuntimeGo.ConfigureGlobalCache env (some cfg) opts
          { Cache := none, cacheOnce := true } =
        ((none, []), { Cache := none, cacheOnce := true })) ∧
    (∀ (env : Env) (cfg : Config) (opts : List Part001.RuntimeOptionFunc)
        (e : Err) (s : Part001.P1State),
      s.cacheOnce = false →
      env.discover cfg = .error e →
      Part001.StartCache env (some cfg) opts s =
        ((some e, [.discover cfg]),
         { Cache := s.Cache, cacheOnce := true, mapper := none })) ∧
    (∀ (env : Env) (cfg : Config) (opts : List Part001.RuntimeOptionFunc)
        (m : Option RESTMapper),
      Part001.StartCache env (some cfg) opts
          { Cache := none, cacheOnce := true, mapper := m } =
        ((none, []), { Cache := none, cacheOnce := true, mapper := m })) ∧
    (∀ (env : Env) (config : Option Config) (dc : DelegatingClient),
      (ClientGo.SetClient env config { Client := some dc, clientOnce := true }).1.1 =
        (none, none)) := by
  refine ⟨?_, ?_, ?_, ?_, ?_, ?_, ?_⟩
  · intro env cfg e s h hd
    simp [ClientGo.SetClient, ClientGo.newClient, h, hd]
  · intro env config; rfl
  · intro env cfg opts e s h hm hd
    simp [RuntimeGo.ConfigureGlobalCache, RuntimeGo.NewCache, h, hm, hd]
  · intro env cfg opts; rfl
  · intro env cfg opts e s h hd
    simp [Part001.StartCache, h, hd]
  · intro env cfg opts m; rfl
  · intro env config dc; rfl

/-- Claim C10 witness: a failed first SetClient consumes the guard and a
later call returns nil start and nil error. -/
theorem once_guard_consumed_on_failure_witness :
    ClientGo.SetClient envNoDiscovery (some 5) { Client := none, clientOnce := false } =
      (((none, some "no discovery"), [.discover 5]),
       { Client := none, clientOnce := true }) :=
  once_guard_consumed_on_failure.1 envNoDiscovery 5 "no discovery"
    { Client := none, clientOnce := false } rfl rfl

/-- Claim C7: option functions are applied to the shared RuntimeOptions struct
in argument order (appending an option applies it last, to the result of the
earlier ones), each setter (Scheme, Resync, Namespace, mapper) changes only
its own field and leaves the other three unchanged, and when two options set
the same field the one appearing later in the sequence determines the
resolved value. -/
theorem runtimeOptions_order_frame_lastWins :
    (∀ (opts : List RuntimeGo.RuntimeOptionFunc) (f : RuntimeGo.RuntimeOptionFunc),
      RuntimeGo.resolveOptions (opts ++ [f]) = f (RuntimeGo.resolveOptions opts)) ∧
    (∀ (o : RuntimeGo.RuntimeOptions) (s : SchemeV),
      (RuntimeGo.Scheme s o).Scheme = some s ∧
      (RuntimeGo.Scheme s o).Resync = o.Resync ∧
      (RuntimeGo.Scheme s o).Namespace = o.Namespace ∧
      (RuntimeGo.Scheme s o).mapper = o.mapper) ∧
    (∀ (o : RuntimeGo.RuntimeOptions) (d : Duration),
      (RuntimeGo.Resync d o).Resync = some d ∧
      (RuntimeGo.Resync d o).Scheme = o.Scheme ∧
      (RuntimeGo.Resync d o).Namespace = o.Namespace ∧
      (RuntimeGo.Resync d o).mapper = o.mapper) ∧
    (∀ (o : RuntimeGo.RuntimeOptions) (n : String),
      (RuntimeGo.Namespace n o).Namespace = n ∧
      (RuntimeGo.Namespace n o).Scheme = o.Scheme ∧
      (RuntimeGo.Namespace n o).Resync = o.Resync ∧
      (RuntimeGo.Namespace n o).mapper = o.mapper) ∧
    (∀ (o : RuntimeGo.RuntimeOptions) (m : RESTMapper),
      (RuntimeGo.mapper m o).mapper = some m ∧
      (RuntimeGo.mapper m o).Scheme = o.Scheme ∧
      (RuntimeGo.mapper m o).Resync = o.Resync ∧
      (RuntimeGo.mapper m o).Namespace = o.Namespace) ∧
    (∀ (opts : List RuntimeGo.RuntimeOptionFunc) (s1 s2 : SchemeV),
      (RuntimeGo.resolveOptions
        (opts ++ [RuntimeGo.Scheme s1, RuntimeGo.Scheme s2])).Scheme = some s2) ∧
    (∀ (opts : List RuntimeGo.RuntimeOptionFunc) (d1 d2 : Duration),
      (RuntimeGo.resolveOptions
        (opts ++ [RuntimeGo.Resync d1, RuntimeGo.Resync d2])).Resync = some d2) ∧
    (∀ (opts : List RuntimeGo.RuntimeOptionFunc) (n1 n2 : String),
      (RuntimeGo.resolveOptions
        (opts ++ [RuntimeGo.Namespace n1, RuntimeGo.Namespace n2])).Namespace = n2) ∧
    (∀ (opts : List RuntimeGo.RuntimeOptionFunc) (m1 m2 : RESTMapper),
      (RuntimeGo.resolveOptions
        (opts ++ [RuntimeGo.mapper m1, RuntimeGo.mapper m2])).mapper = some m2) := by
  refine ⟨?_, ?_, ?_, ?_, ?_, ?_, ?_, ?_, ?_⟩
  · intro opts f
    simp [RuntimeGo.resolveOptions, List.foldl_append]
  · intro o s; exact ⟨rfl, rfl, rfl, rfl⟩
  · intro o d; exact ⟨rfl, rfl, rfl, rfl⟩
  · intro o n; exact ⟨rfl, rfl, rfl, rfl⟩
  · intro o m; exact ⟨rfl, rfl, rfl, rfl⟩
  · intro opts s1 s2
    simp [RuntimeGo.resolveOptions, List.foldl_append, RuntimeGo.Scheme]
  · intro opts d1 d2
    simp [RuntimeGo.resolveOptions, List.foldl_append, RuntimeGo.Resync]
  · intro opts n1 n2
    simp [RuntimeGo.resolveOptions, List.foldl_append, RuntimeGo.Namespace]
  · intro opts m1 m2
    simp [RuntimeGo.resolveOptions, List.foldl_append, RuntimeGo.mapper]

/-- Claim C8: on their common path the two revisions agree: for every
environment and every config (nil included), newClient from client.go and
NewCacheAndClient from part_000 called with the options
Scheme(schemeScheme) and Resync(10 hours) perform the same library calls
with the same arguments in the same order (equal traces, hence equal error
conditions), and when they succeed they return the same cache (as the
StartFunc receiver and as the returned cache respectively) and structurally
identical delegating clients. -/
theorem newClient_equiv_NewCacheAndClient (env : Env) (config : Option Config) :
    (ClientGo.newClient env config).2 =
      (Part000.NewCacheAndClient env config
        [Part000.Scheme schemeScheme, Part000.Resync (10 * timeHour)]).2 ∧
    (ClientGo.newClient env config).1 =
      Except.map (fun p => (p.2, p.1))
        (Part000.NewCacheAndClient env config
          [Part000.Scheme schemeScheme, Part000.Resync (10 * timeHour)]).1 := by
  cases config with
  | none => exact ⟨rfl, rfl⟩
  | some cfg =>
    have hr : Part000.resolveOptions
        [Part000.Scheme schemeScheme, Part000.Resync (10 * timeHour)] =
        { Scheme := some schemeScheme, Resync := some (10 * timeHour),
          Namespace := "" } := rfl
    cases hd : env.discover cfg with
    | error e =>
      constructor <;>
        simp [ClientGo.newClient, Part000.NewCacheAndClient, Except.map, hr, hd]
    | ok m =>
      cases hc : env.cacheNew cfg
          { Scheme := some schemeScheme, Mapper := some m,
            Resync := some (10 * timeHour), Namespace := "" } with
      | error e =>
        constructor <;>
          simp [ClientGo.newClient, Part000.NewCacheAndClient, Except.map, hr, hd, hc]
      | ok c =>
        cases hk : env.clientNew cfg
            { Scheme := some schemeScheme, Mapper := some m } with
        | error e =>
          constructor <;>
            simp [ClientGo.newClient, Part000.NewCacheAndClient, Except.map, hr, hd, hc, hk]
        | ok a =>
          constructor <;>
            simp [ClientGo.newClient, Part000.NewCacheAndClient, Except.map, hr, hd, hc, hk]

end KnativeController
